import Mathlib

/-!
Shallow embedding of the dispatcher and pipeline command of
`src/source/bear/source/Application.cc` (the `bear` namespace: the
`Command` constructor and `execute`, and `Application::command`).

External collaborators (configuration loading, the two stage factories,
the filesystem) are modelled as explicit inputs; the control flow of the
two core functions is translated line by line.  Both functions also
return a trace of the observable calls they make (stage-factory calls
for the dispatcher; stage executions and filesystem accesses for the
pipeline), so that claims about which collaborator runs, how often and
in which order are statable.
-/

namespace Bear

/-- Equality of `Except` values is decidable when it is on both sides. -/
instance {ε α : Type} [DecidableEq ε] [DecidableEq α] : DecidableEq (Except ε α) := fun x y =>
  match x, y with
  | Except.ok a, Except.ok b =>
      if h : a = b then Decidable.isTrue (congrArg Except.ok h)
      else Decidable.isFalse (fun hc => h (Except.ok.inj hc))
  | Except.ok _, Except.error _ => Decidable.isFalse (fun hc => Except.noConfusion hc)
  | Except.error _, Except.ok _ => Decidable.isFalse (fun hc => Except.noConfusion hc)
  | Except.error a, Except.error b =>
      if h : a = b then Decidable.isTrue (congrArg Except.error h)
      else Decidable.isFalse (fun hc => h (Except.error.inj hc))

/-- Errors (`std::runtime_error` / `rust::Result` error values) are
modelled by their message string. -/
abbrev Err := String

/-- Filesystem paths (`fs::path`) are modelled as strings. -/
abbrev Path := String

/-- A constructed stage command (`ps::CommandPtr`): the only capability
the core uses is its blocking `execute() -> rust::Result<int>`, so a
stage command is modelled by that result. -/
structure StageCmd where
  run : Except Err Int
deriving DecidableEq, Repr

/-- Index of the last occurrence of a character in a list, if any. -/
def lastIndexOf (c : Char) : List Char → Option Nat
  | [] => none
  | a :: rest =>
    match lastIndexOf c rest with
    | some i => some (i + 1)
    | none => if a = c then some 0 else none

/-- Split a path into its directory part (with the trailing slash kept)
and its filename, as `fs::path::filename` does. -/
def splitFilename (p : String) : String × String :=
  match lastIndexOf '/' p.toList with
  | none => ("", p)
  | some i => (String.mk (p.toList.take (i + 1)), String.mk (p.toList.drop (i + 1)))

/-- Stem of a filename as `fs::path::stem`: everything before the last
dot, except that `.`, `..`, dotless names and a leading-dot-only name
have no extension to strip. -/
def stemOf (fname : String) : String :=
  if fname = "." ∨ fname = ".." then fname
  else
    match lastIndexOf '.' fname.toList with
    | none => fname
    | some 0 => fname
    | some i => String.mk (fname.toList.take i)

/-- Whether a string's first character is a dot. -/
def startsWithDot (s : String) : Bool :=
  match s.toList with
  | [] => false
  | c :: _ => c = '.'

/-- Model of `fs::path::replace_extension`: drop the filename's
extension and append the replacement (a dot is inserted when the
replacement is nonempty and does not start with one).  Note the C++
member MUTATES its receiver and returns a reference to it; call sites
below account for that. -/
def replaceExtension (p e : String) : String :=
  let parts := splitFilename p
  let e2 := if e = "" ∨ startsWithDot e then e else "." ++ e
  parts.1 ++ stemOf parts.2 ++ e2

/-- Modelled from the spec: `cmd::citnames::DEFAULT_OUTPUT`, the fixed
default output path of the translate stage.  Its definition is outside
`src/`; the spec's example in section 4.1 step 6 names
`compile_commands.json`. -/
def DEFAULT_OUTPUT : Path := "compile_commands.json"

/-- The citnames (translate) stage configuration: the two path fields
the dispatcher assigns, plus one field it leaves alone (standing for
the rest of the loaded settings). -/
structure CitnamesConfig where
  output_file : Path
  input_file : Path
  append : Bool
deriving DecidableEq, Repr

/-- The intercept (capture) stage configuration: the path field the
dispatcher assigns, plus one field it leaves alone. -/
structure InterceptConfig where
  output_file : Path
  library : Path
deriving DecidableEq, Repr

/-- `config::Configuration`: one nested settings block per stage. -/
structure Configuration where
  citnames : CitnamesConfig
  intercept : InterceptConfig
deriving DecidableEq, Repr

/-- Parsed CLI arguments, reduced to the two lookups the dispatcher
performs: `args.as_string(flags::COMMAND)` (the positional command,
`none` when absent) and `args.as_string(cmd::citnames::FLAG_OUTPUT)`
(the explicit output flag, `none` when absent). -/
structure Arguments where
  command : Option String
  output : Option String
deriving DecidableEq, Repr

/-- The external collaborators of `Application::command`: the
configuration loader and the two stage factories.  A factory's
`matches` and `subcommand` receive the stage configuration the factory
currently holds (initially the loaded one, replaced by `load_config`
before the pipeline-mode constructions). -/
structure Ext where
  loadConfig : Arguments → Except Err Configuration
  citnamesMatches : CitnamesConfig → Arguments → Bool
  citnamesSubcommand : CitnamesConfig → Arguments → Except Err StageCmd
  interceptMatches : InterceptConfig → Arguments → Bool
  interceptSubcommand : InterceptConfig → Arguments → Except Err StageCmd

/-- Observable calls made by the dispatcher, in order. -/
inductive REvent where
  | loadConfigCall
  | matchesCitnames
  | matchesIntercept
  | subcommandCitnames
  | subcommandIntercept
deriving DecidableEq, Repr

/-- `bear::Command` (Application.cc lines 34-39): the pipeline command,
holding the two already-attempted stage constructions and the
intermediate output path. -/
structure Command where
  intercept_ : Except Err StageCmd
  citnames_ : Except Err StageCmd
  output_ : Path
deriving DecidableEq, Repr

/-- What `Application::command` resolves to: a standalone stage command
or a pipeline `bear::Command`. -/
inductive ResolvedCmd where
  | stage (cmd : StageCmd)
  | bearCommand (cmd : Command)
deriving DecidableEq, Repr

/-- Application.cc lines 124-128: the configuration mutated for the
pipeline mode.  Line 126 sets `citnames.output_file` to the output flag
or the default; line 127 calls `replace_extension(".events.json")` ON
that field — `fs::path::replace_extension` mutates its receiver before
the result is copied into `citnames.input_file` — so after line 127
BOTH citnames path fields hold the intermediate path; line 128 copies
it into `intercept.output_file`.  All other fields are kept from the
loaded configuration. -/
def pipelineConfig (configuration : Configuration) (args : Arguments) : Configuration :=
  let output0 := (args.output).getD DEFAULT_OUTPUT
  let intermediate := replaceExtension output0 ".events.json"
  { citnames :=
      { output_file := intermediate
        input_file := intermediate
        append := configuration.citnames.append }
    intercept :=
      { output_file := intermediate
        library := configuration.intercept.library } }

/-- `Application::command` (Application.cc lines 105-139): load the
configuration, try the citnames grammar, then the intercept grammar,
then reject a leftover positional command, and otherwise build the
pipeline `bear::Command` from the mutated configuration.  Returns the
resolved command together with the trace of collaborator calls. -/
def Application.command (x : Ext) (args : Arguments) :
    Except Err ResolvedCmd × List REvent :=
  match x.loadConfig args with
  | Except.error e => (Except.error e, [REvent.loadConfigCall])
  | Except.ok configuration =>
    if x.citnamesMatches configuration.citnames args then
      (Except.map ResolvedCmd.stage (x.citnamesSubcommand configuration.citnames args),
        [REvent.loadConfigCall, REvent.matchesCitnames, REvent.subcommandCitnames])
    else if x.interceptMatches configuration.intercept args then
      (Except.map ResolvedCmd.stage (x.interceptSubcommand configuration.intercept args),
        [REvent.loadConfigCall, REvent.matchesCitnames, REvent.matchesIntercept,
          REvent.subcommandIntercept])
    else if (args.command).isSome then
      (Except.error "Invalid subcommand",
        [REvent.loadConfigCall, REvent.matchesCitnames, REvent.matchesIntercept])
    else
      let config := pipelineConfig configuration args
      let intercept_cmd := x.interceptSubcommand config.intercept args
      let citnames_cmd := x.citnamesSubcommand config.citnames args
      (Except.ok (ResolvedCmd.bearCommand
          { intercept_ := intercept_cmd, citnames_ := citnames_cmd,
            output_ := config.intercept.output_file }),
        [REvent.loadConfigCall, REvent.matchesCitnames, REvent.matchesIntercept,
          REvent.subcommandIntercept, REvent.subcommandCitnames])

/-- Observable stage executions and filesystem accesses made by
`bear::Command::execute`, in order. -/
inductive XEvent where
  | captureExec
  | existsCheck
  | translateExec
  | removeFile
deriving DecidableEq, Repr

/-- The filesystem's answers during one `bear::Command::execute` run:
what `fs::exists(output_, ec)` reports once the capture stage has
returned (a status error is possible), and what `fs::remove(output_,
ec)` reports.  Both C++ calls are the `error_code` overloads, so
neither throws. -/
structure FsWorld where
  existsResult : Except Err Bool
  removeResult : Except Err Bool
deriving DecidableEq, Repr

/-- The `noexcept` overload `fs::exists(p, ec)` returns false whenever
the underlying status query errors. -/
def fsExistsBool (r : Except Err Bool) : Bool :=
  match r with
  | Except.ok b => b
  | Except.error _ => false

/-- `bear::Command::execute` (Application.cc lines 41-64): return the
first construction error if any; otherwise run the capture stage and
record its result, check the intermediate file, and when it exists run
the translate stage (its result discarded by `on_success`) and remove
the file (its `error_code` discarded); return the capture result.
Returns the result together with the trace of executions and
filesystem accesses. -/
def Command.execute (c : Command) (w : FsWorld) : Except Err Int × List XEvent :=
  match c.intercept_ with
  | Except.error e => (Except.error e, [])
  | Except.ok icmd =>
    match c.citnames_ with
    | Except.error e => (Except.error e, [])
    | Except.ok _ccmd =>
      let result := icmd.run
      if fsExistsBool w.existsResult then
        (result, [XEvent.captureExec, XEvent.existsCheck, XEvent.translateExec,
          XEvent.removeFile])
      else
        (result, [XEvent.captureExec, XEvent.existsCheck])

/-- Build a pipeline `bear::Command` from its three constructor
arguments (Application.cc lines 34-39 store them unchanged). -/
def mkBear (ic cc : Except Err StageCmd) (out : Path) : Command :=
  { intercept_ := ic, citnames_ := cc, output_ := out }

/-- A loaded configuration used as a concrete fixture in witnesses. -/
def cfg0 : Configuration :=
  { citnames := { output_file := "cfg_out.json", input_file := "cfg_in.json", append := false }
    intercept := { output_file := "icfg_out.sqlite3", library := "libexec.so" } }

/-- An argument set with no positional command and no output flag. -/
def argsNone : Arguments := { command := none, output := none }

/-- An argument set carrying a positional command value. -/
def argsCmd : Arguments := { command := some "make", output := none }

/-- Collaborators for which BOTH exclusive grammars match every
argument set, and whose two factories build distinguishable stage
commands. -/
def extBoth : Ext :=
  { loadConfig := fun _ => Except.ok cfg0
    citnamesMatches := fun _ _ => true
    citnamesSubcommand := fun _ _ => Except.ok { run := Except.ok 1 }
    interceptMatches := fun _ _ => true
    interceptSubcommand := fun _ _ => Except.ok { run := Except.ok 2 } }

/-- Collaborators for which NEITHER exclusive grammar matches any
argument set. -/
def extNeither : Ext :=
  { loadConfig := fun _ => Except.ok cfg0
    citnamesMatches := fun _ _ => false
    citnamesSubcommand := fun _ _ => Except.ok { run := Except.ok 1 }
    interceptMatches := fun _ _ => false
    interceptSubcommand := fun _ _ => Except.ok { run := Except.ok 2 } }

/-- A capture stage command that executes successfully. -/
def icmdOk : StageCmd := { run := Except.ok 0 }

/-- A capture stage command whose execution fails. -/
def icmdFail : StageCmd := { run := Except.error "capture failed" }

/-- A translate stage command whose execution fails. -/
def ccmdFail : StageCmd := { run := Except.error "translate failed" }

/-- A concrete intermediate path for witnesses. -/
def pathP : Path := "out.events.json"

/-- A filesystem in which the intermediate file exists. -/
def wExists : FsWorld := { existsResult := Except.ok true, removeResult := Except.ok true }

/-- A filesystem in which the intermediate file is absent. -/
def wAbsent : FsWorld := { existsResult := Except.ok false, removeResult := Except.ok false }

/-- A filesystem whose existence check itself errors. -/
def wErr : FsWorld := { existsResult := Except.error "status failed", removeResult := Except.ok false }

/-- Claim C1 is false of the code: at an input both grammars match, the
dispatcher returns the TRANSLATE (citnames) stage's Outcome, not the
capture (intercept) stage's, and the capture-stage grammar check is
never even performed (so it certainly does not happen strictly before
the translate-stage check — lines 114-119 test `citnames.matches`
first). -/
theorem C1_capture_precedence_false :
    extBoth.citnamesMatches cfg0.citnames argsNone = true
      ∧ extBoth.interceptMatches cfg0.intercept argsNone = true
      ∧ (Application.command extBoth argsNone).1
          = Except.ok (ResolvedCmd.stage { run := Except.ok 1 })
      ∧ (Application.command extBoth argsNone).1
          ≠ Except.map ResolvedCmd.stage (extBoth.interceptSubcommand cfg0.intercept argsNone)
      ∧ REvent.matchesIntercept ∉ (Application.command extBoth argsNone).2 := by
  decide

/-- Claim C1, amended: in `Application::command`, the translate-stage
(citnames) exclusive-grammar check is performed strictly before the
capture-stage (intercept) check, and whenever the translate grammar
matches, the translate stage's Outcome is returned unchanged and the
capture stage is never consulted (neither its `matches` nor its
`subcommand`). -/
theorem C1_translate_checked_first (x : Ext) (args : Arguments) (c : Configuration)
    (hload : x.loadConfig args = Except.ok c)
    (hmatch : x.citnamesMatches c.citnames args = true) :
    Application.command x args
      = (Except.map ResolvedCmd.stage (x.citnamesSubcommand c.citnames args),
        [REvent.loadConfigCall, REvent.matchesCitnames, REvent.subcommandCitnames]) := by
  simp [Application.command, hload, hmatch]

/-- Witness for C1's amended theorem at the concrete fixture. -/
theorem C1_translate_checked_first_witness :
    extBoth.loadConfig argsNone = Except.ok cfg0
      ∧ extBoth.citnamesMatches cfg0.citnames argsNone = true
      ∧ Application.command extBoth argsNone
          = (Except.map ResolvedCmd.stage (extBoth.citnamesSubcommand cfg0.citnames argsNone),
            [REvent.loadConfigCall, REvent.matchesCitnames, REvent.subcommandCitnames]) :=
  ⟨rfl, rfl, C1_translate_checked_first extBoth argsNone cfg0 rfl rfl⟩

/-- Claim C2 fails on the code: in pipelined mode (here: no output
flag, loaded configuration `cfg0`), the translate stage's configured
output path does NOT keep the flag-or-default value
`compile_commands.json` — line 127's `replace_extension` mutates
`citnames.output_file` in place, so it too becomes the intermediate
path `compile_commands.events.json`. -/
theorem C2_translate_output_clobbered :
    (pipelineConfig cfg0 argsNone).citnames.output_file = "compile_commands.events.json"
      ∧ (pipelineConfig cfg0 argsNone).citnames.output_file
          ≠ (argsNone.output).getD DEFAULT_OUTPUT := by
  decide

/-- Claim C3: for arguments matching neither grammar and carrying no
positional command, `Application::command` successfully returns a
pipeline `bear::Command` whose stored intermediate path is the
translate output path (flag or default) with its extension replaced by
`.events.json`, and that single path is simultaneously the capture
stage's configured output and the translate stage's configured
input. -/
theorem C3_pipeline_shared_intermediate (x : Ext) (args : Arguments) (c : Configuration)
    (hload : x.loadConfig args = Except.ok c)
    (hcit : x.citnamesMatches c.citnames args = false)
    (hint : x.interceptMatches c.intercept args = false)
    (hcmd : args.command = none) :
    (Application.command x args).1
        = Except.ok (ResolvedCmd.bearCommand
            { intercept_ := x.interceptSubcommand (pipelineConfig c args).intercept args
              citnames_ := x.citnamesSubcommand (pipelineConfig c args).citnames args
              output_ := replaceExtension ((args.output).getD DEFAULT_OUTPUT) ".events.json" })
      ∧ (pipelineConfig c args).intercept.output_file
          = replaceExtension ((args.output).getD DEFAULT_OUTPUT) ".events.json"
      ∧ (pipelineConfig c args).citnames.input_file
          = replaceExtension ((args.output).getD DEFAULT_OUTPUT) ".events.json" := by
  refine ⟨?_, rfl, rfl⟩
  simp [Application.command, pipelineConfig, hload, hcit, hint, hcmd]

/-- Witness for C3 at the concrete fixture: the resolved pipeline holds
`compile_commands.events.json` as its shared intermediate path. -/
theorem C3_pipeline_shared_intermediate_witness :
    extNeither.loadConfig argsNone = Except.ok cfg0
      ∧ extNeither.citnamesMatches cfg0.citnames argsNone = false
      ∧ extNeither.interceptMatches cfg0.intercept argsNone = false
      ∧ argsNone.command = none
      ∧ ((Application.command extNeither argsNone).1
            = Except.ok (ResolvedCmd.bearCommand
                { intercept_ := extNeither.interceptSubcommand
                    (pipelineConfig cfg0 argsNone).intercept argsNone
                  citnames_ := extNeither.citnamesSubcommand
                    (pipelineConfig cfg0 argsNone).citnames argsNone
                  output_ := replaceExtension ((argsNone.output).getD DEFAULT_OUTPUT)
                    ".events.json" })
          ∧ (pipelineConfig cfg0 argsNone).intercept.output_file
              = replaceExtension ((argsNone.output).getD DEFAULT_OUTPUT) ".events.json"
          ∧ (pipelineConfig cfg0 argsNone).citnames.input_file
              = replaceExtension ((argsNone.output).getD DEFAULT_OUTPUT) ".events.json") :=
  ⟨rfl, rfl, rfl, rfl,
    C3_pipeline_shared_intermediate extNeither argsNone cfg0 rfl rfl rfl rfl⟩

/-- Claim C4: when both constructions succeeded and the intermediate
file exists after the capture stage ran, the trace is exactly capture
execution, existence check, ONE translate execution, then the removal,
and the returned value is the capture stage's own result whatever the
translate stage's execution returns. -/
theorem C4_translate_runs_once (icmd ccmd : StageCmd) (out : Path) (w : FsWorld)
    (hex : w.existsResult = Except.ok true) :
    Command.execute (mkBear (Except.ok icmd) (Except.ok ccmd) out) w
      = (icmd.run, [XEvent.captureExec, XEvent.existsCheck, XEvent.translateExec,
          XEvent.removeFile]) := by
  simp [Command.execute, mkBear, fsExistsBool, hex]

/-- Witness for C4: a succeeding capture and a FAILING translate stage;
the pipeline still returns the capture's result. -/
theorem C4_translate_runs_once_witness :
    wExists.existsResult = Except.ok true
      ∧ Command.execute (mkBear (Except.ok icmdOk) (Except.ok ccmdFail) pathP) wExists
          = (Except.ok 0, [XEvent.captureExec, XEvent.existsCheck, XEvent.translateExec,
              XEvent.removeFile]) :=
  ⟨rfl, C4_translate_runs_once icmdOk ccmdFail pathP wExists rfl⟩

/-- Claim C5: a capture-stage construction error is returned as-is and
the trace is empty — no stage execution and no filesystem access —
whatever the translate-stage Outcome and the filesystem hold. -/
theorem C5_capture_construction_error (e : Err) (cc : Except Err StageCmd) (out : Path)
    (w : FsWorld) :
    Command.execute (mkBear (Except.error e) cc out) w = (Except.error e, []) := by
  simp [Command.execute, mkBear]

/-- Claim C6: a successful capture construction with a failed translate
construction returns the translate construction error with an empty
trace — neither stage runs, no filesystem access. -/
theorem C6_translate_construction_error (icmd : StageCmd) (f : Err) (out : Path)
    (w : FsWorld) :
    Command.execute (mkBear (Except.ok icmd) (Except.error f) out) w
      = (Except.error f, []) := by
  simp [Command.execute, mkBear]

/-- Claim C7: when both constructions succeeded and the intermediate
file does not exist after the capture stage ran, the trace is exactly
capture execution then existence check: the translate stage is never
executed and no removal is attempted. -/
theorem C7_missing_file_skips_translate (icmd ccmd : StageCmd) (out : Path) (w : FsWorld)
    (hex : w.existsResult = Except.ok false) :
    Command.execute (mkBear (Except.ok icmd) (Except.ok ccmd) out) w
      = (icmd.run, [XEvent.captureExec, XEvent.existsCheck])
      ∧ XEvent.translateExec
          ∉ (Command.execute (mkBear (Except.ok icmd) (Except.ok ccmd) out) w).2
      ∧ XEvent.removeFile
          ∉ (Command.execute (mkBear (Except.ok icmd) (Except.ok ccmd) out) w).2 := by
  refine ⟨?_, ?_, ?_⟩ <;> simp [Command.execute, mkBear, fsExistsBool, hex]

/-- Witness for C7 at the concrete fixture. -/
theorem C7_missing_file_skips_translate_witness :
    wAbsent.existsResult = Except.ok false
      ∧ (Command.execute (mkBear (Except.ok icmdOk) (Except.ok ccmdFail) pathP) wAbsent
          = (Except.ok 0, [XEvent.captureExec, XEvent.existsCheck])
        ∧ XEvent.translateExec
            ∉ (Command.execute (mkBear (Except.ok icmdOk) (Except.ok ccmdFail) pathP) wAbsent).2
        ∧ XEvent.removeFile
            ∉ (Command.execute (mkBear (Except.ok icmdOk) (Except.ok ccmdFail) pathP) wAbsent).2) :=
  ⟨rfl, C7_missing_file_skips_translate icmdOk ccmdFail pathP wAbsent rfl⟩

/-- Claim C8: arguments matching neither grammar but carrying a
positional command value make `Application::command` fail with the
"Invalid subcommand" error; the trace shows both grammar checks and no
`subcommand` call, so no stage command is constructed. -/
theorem C8_invalid_subcommand (x : Ext) (args : Arguments) (c : Configuration) (s : String)
    (hload : x.loadConfig args = Except.ok c)
    (hcit : x.citnamesMatches c.citnames args = false)
    (hint : x.interceptMatches c.intercept args = false)
    (hcmd : args.command = some s) :
    Application.command x args
      = (Except.error "Invalid subcommand",
        [REvent.loadConfigCall, REvent.matchesCitnames, REvent.matchesIntercept]) := by
  simp [Application.command, hload, hcit, hint, hcmd]

/-- Witness for C8 at the concrete fixture. -/
theorem C8_invalid_subcommand_witness :
    extNeither.loadConfig argsCmd = Except.ok cfg0
      ∧ extNeither.citnamesMatches cfg0.citnames argsCmd = false
      ∧ extNeither.interceptMatches cfg0.intercept argsCmd = false
      ∧ argsCmd.command = some "make"
      ∧ Application.command extNeither argsCmd
          = (Except.error "Invalid subcommand",
            [REvent.loadConfigCall, REvent.matchesCitnames, REvent.matchesIntercept]) :=
  ⟨rfl, rfl, rfl, rfl, C8_invalid_subcommand extNeither argsCmd cfg0 "make" rfl rfl rfl rfl⟩

/-- Claim C9: when both constructions succeeded, the trace is capture
execution, then the existence check, then — exactly when the filesystem
reports the intermediate file present — the translate execution and the
removal.  The formula does not mention the capture command's run
result at all: the check, the translate execution and the removal
happen regardless of whether the capture execution succeeded or
failed. -/
theorem C9_exists_check_unconditional (icmd ccmd : StageCmd) (out : Path) (w : FsWorld) :
    (Command.execute (mkBear (Except.ok icmd) (Except.ok ccmd) out) w).2
      = XEvent.captureExec :: XEvent.existsCheck ::
          (if fsExistsBool w.existsResult then [XEvent.translateExec, XEvent.removeFile]
            else []) := by
  by_cases h : fsExistsBool w.existsResult <;> simp [Command.execute, mkBear, h]

/-- Claim C10: when both constructions succeeded the returned value is
exactly the capture execution's result for EVERY filesystem behaviour;
an existence-check error makes the trace stop at the check (the file is
treated as absent, so neither translate nor removal runs); and the
whole outcome is insensitive to the removal's reported result, so no
error born in the existence check or the removal reaches the returned
result. -/
theorem C10_result_is_capture (icmd ccmd : StageCmd) (out : Path) (w : FsWorld) :
    (Command.execute (mkBear (Except.ok icmd) (Except.ok ccmd) out) w).1 = icmd.run
      ∧ (∀ e : Err, w.existsResult = Except.error e →
          (Command.execute (mkBear (Except.ok icmd) (Except.ok ccmd) out) w).2
            = [XEvent.captureExec, XEvent.existsCheck])
      ∧ (∀ w2 : FsWorld, w2.existsResult = w.existsResult →
          Command.execute (mkBear (Except.ok icmd) (Except.ok ccmd) out) w2
            = Command.execute (mkBear (Except.ok icmd) (Except.ok ccmd) out) w) := by
  refine ⟨?_, ?_, ?_⟩
  · by_cases h : fsExistsBool w.existsResult <;> simp [Command.execute, mkBear, h]
  · intro e he
    simp [Command.execute, mkBear, fsExistsBool, he]
  · intro w2 hw
    simp [Command.execute, mkBear, hw]

/-- Witness for C10 with a failing existence check: the capture result
comes back untouched and translate plus removal are skipped. -/
theorem C10_result_is_capture_witness :
    (Command.execute (mkBear (Except.ok icmdOk) (Except.ok ccmdFail) pathP) wErr).1
        = Except.ok 0
      ∧ wErr.existsResult = Except.error "status failed"
      ∧ (Command.execute (mkBear (Except.ok icmdOk) (Except.ok ccmdFail) pathP) wErr).2
          = [XEvent.captureExec, XEvent.existsCheck] :=
  ⟨(C10_result_is_capture icmdOk ccmdFail pathP wErr).1, rfl,
    (C10_result_is_capture icmdOk ccmdFail pathP wErr).2.1 "status failed" rfl⟩

end Bear
